import Mathlib

/-!
Shallow embedding of the prediction-explanation reporting core of the evalml
repository (`evalml/model_understanding/prediction_explanations/_user_interface.py`
and `.../explainers.py`), together with theorems about the claims on its
behaviour.

Numeric attribution values (Python floats) are modelled as exact rationals `ℚ`.
External collaborators (the SHAP attribution algorithms in `_algorithms.py`,
`Texttable.draw`, pandas/sklearn predictors) are modelled as explicit
parameters: a pipeline carries the per-class attribution dictionaries the
external algorithm would return, table drawing is an abstract `Table → String`
argument, and scoring is an `Except` argument standing for the outcome of
`pipeline.predict` / metric computation.
-/

namespace EvalML

/-- Python's `<=` on strings compares the code points lexicographically; this
is that comparison on the underlying character lists (a missing character
compares low, as in Python). -/
def charListLE : List Char → List Char → Bool
  | [], _ => true
  | _ :: _, [] => false
  | c :: cs, d :: ds => if c < d then true else if d < c then false else charListLE cs ds

/-- Python string comparison `a <= b` as a proposition. -/
def strRel (a b : String) : Prop := charListLE a.data b.data = true

instance : DecidableRel strRel := fun _ _ => inferInstanceAs (Decidable (_ = true))

/-- Python tuple comparison `(value, feature_name) <= (value', feature_name')`:
first on the numeric value, ties broken by the feature name. -/
def tupleOrder (a b : ℚ × String) : Prop := a.1 < b.1 ∨ (a.1 = b.1 ∧ strRel a.2 b.2)

instance : DecidableRel tupleOrder := fun _ _ => inferInstanceAs (Decidable (_ ∨ _))

theorem charListLE_total : ∀ l₁ l₂ : List Char, charListLE l₁ l₂ = true ∨ charListLE l₂ l₁ = true
  | [], _ => by simp [charListLE]
  | _ :: _, [] => by simp [charListLE]
  | c :: cs, d :: ds => by
    simp only [charListLE]
    rcases lt_trichotomy c d with h | h | h
    · simp [h]
    · subst h
      simpa [lt_irrefl] using charListLE_total cs ds
    · simp [h, lt_asymm h]

theorem charListLE_trans : ∀ l₁ l₂ l₃ : List Char,
    charListLE l₁ l₂ = true → charListLE l₂ l₃ = true → charListLE l₁ l₃ = true
  | [], _, _, _, _ => rfl
  | _ :: _, [], _, h, _ => by simp [charListLE] at h
  | _ :: _, _ :: _, [], _, h => by simp [charListLE] at h
  | c :: cs, d :: ds, e :: es, h₁₂, h₂₃ => by
    simp only [charListLE] at h₁₂ h₂₃ ⊢
    rcases lt_trichotomy c d with hcd | hcd | hcd
    · have hde : d ≤ e := by
        rcases lt_trichotomy d e with h | h | h
        · exact le_of_lt h
        · exact le_of_eq h
        · rw [if_neg (lt_asymm h), if_pos h] at h₂₃
          exact absurd h₂₃ Bool.false_ne_true
      rw [if_pos (lt_of_lt_of_le hcd hde)]
    · subst hcd
      rw [if_neg (lt_irrefl c), if_neg (lt_irrefl c)] at h₁₂
      rcases lt_trichotomy c e with h | h | h
      · rw [if_pos h]
      · subst h
        rw [if_neg (lt_irrefl c), if_neg (lt_irrefl c)] at h₂₃ ⊢
        exact charListLE_trans cs ds es h₁₂ h₂₃
      · rw [if_neg (lt_asymm h), if_pos h] at h₂₃
        exact absurd h₂₃ Bool.false_ne_true
    · rw [if_neg (lt_asymm hcd), if_pos hcd] at h₁₂
      exact absurd h₁₂ Bool.false_ne_true

instance : IsTotal (ℚ × String) tupleOrder where
  total a b := by
    rcases lt_trichotomy a.1 b.1 with h | h | h
    · exact Or.inl (Or.inl h)
    · rcases charListLE_total a.2.data b.2.data with h' | h'
      · exact Or.inl (Or.inr ⟨h, h'⟩)
      · exact Or.inr (Or.inr ⟨h.symm, h'⟩)
    · exact Or.inr (Or.inl h)

instance : IsTrans (ℚ × String) tupleOrder where
  trans a b c hab hbc := by
    rcases hab with h | ⟨he, hs⟩
    · rcases hbc with h' | ⟨he', _⟩
      · exact Or.inl (h.trans h')
      · exact Or.inl (he' ▸ h)
    · rcases hbc with h' | ⟨he', hs'⟩
      · exact Or.inl (he ▸ h')
      · exact Or.inr ⟨he.trans he', charListLE_trans _ _ _ hs hs'⟩

/-- Python's slice `l[-k:]` for `k ≥ 0`: the last `k` elements, except that
`l[-0:]` is the whole list (since `-0 == 0` in Python). -/
def pySliceLast {α : Type} (l : List α) (k : ℕ) : List α :=
  if k = 0 then l else l.drop (l.length - k)

/-! ## `_user_interface.py`: `_make_rows` and `_make_table`

A Python attribution dictionary `{feature_name: [value]}` is modelled as an
association list `List (String × ℚ)` in insertion order, the `ℚ` standing for
`value[0]` (the dictionaries store one scalar per feature, wrapped in a
one-element list).  Python's `sorted` is a stable sort wrt the tuple order, so
it is modelled by insertion sort with the (total, transitive) relation
`tupleOrder`; a stable sort's output is unique, so this agrees with CPython's
Timsort. -/

/-- `tuples = sorted([(value[0], feature_name) for ...])` in `_make_rows`. -/
def sortedTuples (normalized_values : List (String × ℚ)) : List (ℚ × String) :=
  List.insertionSort tupleOrder (normalized_values.map fun p => (p.2, p.1))

/-- `features_to_display` in `_make_rows`: all features (highest value first)
when there are at most `2 * top_k` of them, otherwise
`tuples[-top_k:][::-1] + tuples[:top_k][::-1]`. -/
def featuresToDisplay (normalized_values : List (String × ℚ)) (top_k : ℕ) :
    List (ℚ × String) :=
  let tuples := sortedTuples normalized_values
  if tuples.length ≤ 2 * top_k then tuples.reverse
  else (pySliceLast tuples top_k).reverse ++ (tuples.take top_k).reverse

/-- The exact rational value of the IEEE-754 double written `0.2` in Python
(`1/5` is not representable; the nearest double lies slightly above it). -/
def float0_2 : ℚ := 3602879701896397 / 2 ^ 54

/-- The exact value of the double written `0.4`; it equals `2 * float0_2`. -/
def float0_4 : ℚ := 3602879701896397 / 2 ^ 53

/-- The exact value of the double written `0.6`; it lies slightly below
`3/5` and below `3 * float0_2`, which is why `0.6 // 0.2 == 2.0` in Python. -/
def float0_6 : ℚ := 5404319552844595 / 2 ^ 53

/-- The exact value of the double written `0.8`; it equals `4 * float0_2`. -/
def float0_8 : ℚ := 3602879701896397 / 2 ^ 52

/-- `min(int(abs(value) // 0.2) + 1, 5)` in `_make_rows`, on IEEE doubles:
`value` stands for the exact rational value of the normalized double, the
literal `0.2` is the double `float0_2`, and CPython's float floor division
(`float_divmod`, with its `div - floordiv > 0.5` correction) returns the
exact floor of the exact quotient of its operands' values. -/
def symbolCount (value : ℚ) : ℕ := min ((⌊|value| / float0_2⌋).toNat + 1) 5

/-- `display_text = symbol * min(int(abs(value) // 0.2) + 1, 5)` with
`symbol = "+" if value >= 0 else "-"`. -/
def displayText (value : ℚ) : String :=
  String.mk (List.replicate (symbolCount value) (if 0 ≤ value then '+' else '-'))

/-- Python's bankers rounding (`round(x, 2)`), on exact rationals. -/
def pyRound2 (q : ℚ) : ℚ :=
  let x := q * 100
  let n : ℤ :=
    if Int.fract x < 1/2 then ⌊x⌋
    else if 1/2 < Int.fract x then ⌊x⌋ + 1
    else if ⌊x⌋ % 2 = 0 then ⌊x⌋ else ⌊x⌋ + 1
  (n : ℚ) / 100

/-- Dictionary lookup `d[k][0]` on the association-list model. -/
def dictGet (d : List (String × ℚ)) (k : String) : ℚ :=
  ((d.find? fun p => p.1 == k).map Prod.snd).getD 0

/-- One row of the SHAP table: `[feature_name, display_text]` plus the rounded
raw SHAP value when requested. -/
structure Row where
  feature_name : String
  display_text : String
  shap_value : Option ℚ
deriving DecidableEq

/-- The row built for one `(value, feature_name)` tuple in `_make_rows`. -/
def makeRow (shap_values : List (String × ℚ)) (include_shap_values : Bool)
    (t : ℚ × String) : Row :=
  { feature_name := t.2
    display_text := displayText t.1
    shap_value :=
      if include_shap_values then some (pyRound2 (dictGet shap_values t.2)) else none }

/-- `_make_rows(shap_values, normalized_values, top_k, include_shap_values)`. -/
def _make_rows (shap_values normalized_values : List (String × ℚ)) (top_k : ℕ)
    (include_shap_values : Bool) : List Row :=
  (featuresToDisplay normalized_values top_k).map (makeRow shap_values include_shap_values)

theorem sortedTuples_perm (nv : List (String × ℚ)) :
    (sortedTuples nv).Perm (nv.map fun p => (p.2, p.1)) :=
  List.perm_insertionSort _ _

theorem sortedTuples_sorted (nv : List (String × ℚ)) :
    (sortedTuples nv).Pairwise tupleOrder :=
  List.sorted_insertionSort _ _

theorem length_sortedTuples (nv : List (String × ℚ)) :
    (sortedTuples nv).length = nv.length :=
  (sortedTuples_perm nv).length_eq.trans (List.length_map _ _)

/-- A cell of a rendered table (Texttable receives strings and floats). -/
inductive Cell where
  | str (s : String)
  | num (q : ℚ)
deriving DecidableEq

/-- The rows handed to `Texttable.add_rows` (header row first).  The actual
text drawing (`Texttable.draw`) belongs to an external library and is modelled
as an abstract `Table → String` argument where needed. -/
abbrev Table := List (List Cell)

/-- The header row built in `_make_table`. -/
def tableHeader (include_shap_values : Bool) : List Cell :=
  [.str "Feature Name", .str "Contribution to Prediction"]
    ++ if include_shap_values then [.str "SHAP Value"] else []

/-- `row = [feature_name, display_text]` plus the optional SHAP-value column,
as appended to the table in `_make_rows`. -/
def rowCells (r : Row) : List Cell :=
  [.str r.feature_name, .str r.display_text]
    ++ match r.shap_value with
       | some q => [.num q]
       | none => []

/-- `_make_table`: header plus the rows of `_make_rows` (the `Texttable`
layout settings only affect the external drawing). -/
def _make_table (shap_values normalized_values : List (String × ℚ)) (top_k : ℕ)
    (include_shap_values : Bool) : Table :=
  tableHeader include_shap_values
    :: (_make_rows shap_values normalized_values top_k include_shap_values).map rowCells

/-- `_SHAPRegressionTableMaker.__call__`. -/
def _SHAPRegressionTableMaker (draw : Table → String)
    (shap_values normalized_values : List (String × ℚ)) (top_k : ℕ)
    (include_shap_values : Bool) : String :=
  draw (_make_table shap_values normalized_values top_k include_shap_values)

/-- `_SHAPBinaryTableMaker.__call__`: renders `shap_values[1]` /
`normalized_values[1]`, the dominant-class attribution sets. -/
def _SHAPBinaryTableMaker (draw : Table → String)
    (shap_values normalized_values : List (List (String × ℚ))) (top_k : ℕ)
    (include_shap_values : Bool) : String :=
  draw (_make_table (shap_values.getD 1 []) (normalized_values.getD 1 []) top_k
    include_shap_values)

/-- `_SHAPMultiClassTableMaker.__call__`: one table per class via
`zip(class_names, shap_values, normalized_values)`, each preceded by a
`"Class: <name>\n"` line and followed by `"\n"`, joined with `"\n"`.
`drawLines` stands for `table.draw().splitlines()` of the external library. -/
def _SHAPMultiClassTableMaker (drawLines : Table → List String)
    (class_names : List String)
    (shap_values normalized_values : List (List (String × ℚ))) (top_k : ℕ)
    (include_shap_values : Bool) : String :=
  String.intercalate "\n"
    ((class_names.zip (shap_values.zip normalized_values)).flatMap fun t =>
      ("Class: " ++ t.1 ++ "\n")
        :: (drawLines (_make_table t.2.1 t.2.2 top_k include_shap_values) ++ ["\n"]))

/-- A fitted pipeline, together with the output of the external
`_compute_shap_values` / `_normalize_shap_values` on the single row being
explained: the problem type selects the constructor, and the SHAP algorithm
returns one attribution dictionary for regression and a per-class list for
classifiers (`pipeline._classes` is the stored class list). -/
inductive Pipeline where
  | regression (shap_values normalized_values : List (String × ℚ))
  | binary (shap_values normalized_values : List (List (String × ℚ)))
  | multiclass (classes : List String)
      (shap_values normalized_values : List (List (String × ℚ)))

/-- The problem-type dispatch at the end of `_make_single_prediction_shap_table`. -/
def renderShapTable (draw : Table → String) (drawLines : Table → List String)
    (pl : Pipeline) (top_k : ℕ) (include_shap_values : Bool) : String :=
  match pl with
  | .regression sv nv => _SHAPRegressionTableMaker draw sv nv top_k include_shap_values
  | .binary sv nv => _SHAPBinaryTableMaker draw sv nv top_k include_shap_values
  | .multiclass cs sv nv =>
      _SHAPMultiClassTableMaker drawLines cs sv nv top_k include_shap_values

/-- `_make_single_prediction_shap_table`: raises unless `input_features` is a
one-row dataframe, then computes attributions (carried by `pl`) and dispatches
on the problem type. -/
def _make_single_prediction_shap_table (draw : Table → String)
    (drawLines : Table → List String) (pl : Pipeline) (input_is_dataframe : Bool)
    (n_rows : ℕ) (top_k : ℕ) (include_shap_values : Bool) : Except String String :=
  if ¬ (input_is_dataframe = true ∧ n_rows = 1) then
    .error "features must be stored in a dataframe of one row."
  else .ok (renderShapTable draw drawLines pl top_k include_shap_values)

/-! ## `explainers.py` -/

/-- `output_format not in {"text", "dict"}` is rejected ("dict" is the
concrete token of the structured output format). -/
def validOutputFormat (fmt : String) : Bool := fmt == "text" || fmt == "dict"

/-- The message of the `output_format` `ValueError` (it ends with the received
invalid value). -/
def outputFormatErrorMsg (fmt : String) : String :=
  "Parameter output_format must be either text or dict. Received " ++ fmt

/-- The `TypeError` Python raises when `explain_prediction` calls
`_make_single_prediction_shap_table(..., output_format=output_format)`:
the callee's definition in `_user_interface.py` accepts no `output_format`
parameter (and no `**kwargs`), so keyword binding fails at the call. -/
def keywordTypeErrorMsg : String :=
  "_make_single_prediction_shap_table() got an unexpected keyword argument "
    ++ "'output_format'"

/-- `explain_prediction`: validates `output_format`, then calls
`_make_single_prediction_shap_table` with an `output_format=` keyword the
callee does not accept — so the call raises `TypeError` before the callee's
body (one-row validation, attribution computation) can run. -/
def explain_prediction (draw : Table → String) (drawLines : Table → List String)
    (fmt : String) (pl : Pipeline) (input_is_dataframe : Bool) (n_rows : ℕ)
    (top_k : ℕ) (include_shap_values : Bool) : Except String String :=
  if ¬ validOutputFormat fmt then .error (outputFormatErrorMsg fmt)
  else .error keywordTypeErrorMsg

/-- Message of the `input_features` `ValueError` in `explain_predictions`. -/
def inputFeaturesErrorMsg : String :=
  "Parameter input_features must be a non-empty dataframe."

/-- `explain_predictions`: validates a non-empty dataframe, then
`output_format`; the index list handed to the report creator is
`range(input_features.shape[0])` (every record in original order). -/
def explain_predictions (fmt : String) (input_is_dataframe : Bool) (n_rows : ℕ) :
    Except String (List ℕ) :=
  if ¬ (input_is_dataframe = true ∧ n_rows ≠ 0) then .error inputFeaturesErrorMsg
  else if ¬ validOutputFormat fmt then .error (outputFormatErrorMsg fmt)
  else .ok (List.range n_rows)

/-- The validation-relevant shape of an `explain_predictions_best_worst`
call: whether `input_features` is a dataframe and its row count, whether
`y_true` is a series and its length, `num_to_explain`, `output_format`. -/
structure BWArgs where
  input_is_dataframe : Bool
  n_rows : ℕ
  y_true_is_series : Bool
  y_true_len : ℕ
  num_to_explain : ℕ
  output_format : String

/-- Message of the row-count `ValueError`. -/
def rowCountErrorMsg (num_to_explain : ℕ) : String :=
  "Input features must be a dataframe with more than " ++ toString (num_to_explain * 2)
    ++ " rows! Convert to a dataframe and select a smaller value for num_to_explain "
    ++ "if you do not have enough data."

/-- Message of the `y_true` type `ValueError`. -/
def yTrueSeriesErrorMsg : String := "Parameter y_true must be a pd.Series."

/-- Message of the length-mismatch `ValueError`. -/
def lengthMismatchErrorMsg (y_len n_rows : ℕ) : String :=
  "Parameters y_true and input_features must have the same number of data points. "
    ++ "Received: true labels: " ++ toString y_len ++ " and " ++ toString n_rows

/-- The four up-front validations of `explain_predictions_best_worst`, in
source order; `some msg` is the first raised `ValueError`. -/
def bwValidationError (a : BWArgs) : Option String :=
  if ¬ (a.input_is_dataframe = true ∧ a.num_to_explain * 2 ≤ a.n_rows) then
    some (rowCountErrorMsg a.num_to_explain)
  else if ¬ a.y_true_is_series = true then some yTrueSeriesErrorMsg
  else if a.y_true_len ≠ a.n_rows then
    some (lengthMismatchErrorMsg a.y_true_len a.n_rows)
  else if ¬ validOutputFormat a.output_format then
    some (outputFormatErrorMsg a.output_format)
  else none

/-- The exception and formatted traceback captured when scoring fails. -/
structure ScoreFailure where
  exn : String
  tb : List String

/-- `PipelineScoreError(exceptions={metric.__name__: (e, tb)},
scored_successfully={})`, the dictionaries as association lists. -/
structure PipelineScoreError where
  exceptions : List (String × String × List String)
  scored_successfully : List String
deriving DecidableEq

/-- What `explain_predictions_best_worst` can raise: a `ValueError` from
validation, or a `PipelineScoreError` wrapping a scoring failure. -/
inductive ExplainError where
  | valueError (msg : String)
  | scoreError (e : PipelineScoreError)
deriving DecidableEq

/-- Comparison of `(original position, error score)` pairs by score, for
`errors.sort_values()`. -/
def errRel (a b : ℕ × ℚ) : Prop := a.2 ≤ b.2

instance : DecidableRel errRel := fun _ _ => inferInstanceAs (Decidable (_ ≤ _))

instance : IsTotal (ℕ × ℚ) errRel where
  total a b := le_total a.2 b.2

instance : IsTrans (ℕ × ℚ) errRel where
  trans _ _ _ hab hbc := le_trans hab hbc

/-- `abs_error(y_true, y_pred)`, the default regression metric: the
per-record error series `np.abs(y_true - y_pred)`. -/
def abs_error (y_true y_pred : List ℚ) : List ℚ :=
  List.zipWith (fun t p => |t - p|) y_true y_pred

/-- One admissible behavior of the external pandas call
`errors.sort_values().index`: a stable ascending sort of the positions by
score.  The model itself does not fix the tie order —
`explain_predictions_best_worst` takes `sort_values` as a parameter, because
pandas' default sort kind (quicksort) guarantees only an ascending
permutation, not which order equal scores keep — and this instance serves to
instantiate witnesses and counterexamples. -/
def sortValuesIdx (errors : List ℚ) : List ℕ :=
  (List.insertionSort errRel errors.enum).map Prod.fst

/-- `best.tolist() + worst.tolist()` with
`best = sorted_scores.index[:num_to_explain]` and
`worst = sorted_scores.index[-num_to_explain:]`, over the index list
`sortedIdx` returned by `sort_values`. -/
def bestWorstIndexList (sortedIdx : List ℕ) (num_to_explain : ℕ) : List ℕ :=
  sortedIdx.take num_to_explain ++ pySliceLast sortedIdx num_to_explain

/-- `explain_predictions_best_worst`: validations in source order, then
scoring (`pipeline.predict` / `predict_proba` plus the metric, an external
computation whose outcome is the `scoring` argument; a raised exception `e`
with formatted traceback `tb` is the `.error` case), then
`errors.sort_values()` — an external pandas call, passed in as
`sort_values`, whose tie order on equal scores is deterministic but
unspecified (the default sort kind is quicksort, not a stable sort) — then
selection of the best/worst record indices.  The returned index list is the
one handed, in this order, to the report creator. -/
def explain_predictions_best_worst (a : BWArgs) (metric_name : String)
    (scoring : Except ScoreFailure (List ℚ)) (sort_values : List ℚ → List ℕ) :
    Except ExplainError (List ℕ) :=
  match bwValidationError a with
  | some msg => .error (.valueError msg)
  | none =>
    match scoring with
    | .error f => .error (.scoreError ⟨[(metric_name, f.exn, f.tb)], []⟩)
    | .ok errors => .ok (bestWorstIndexList (sort_values errors) a.num_to_explain)

/-- `_ReportSectionMaker.make_report_section`: for each `(rank, index)` of
`enumerate(indices)`, heading lines, then predicted-value lines, then table
lines (the three section makers are the closures built by the factory). -/
def make_report_section (heading_maker : ℕ → ℕ → List String)
    (predicted_values_maker : ℕ → List String) (table_maker : ℕ → List String)
    (indices : List ℕ) : List String :=
  indices.enum.flatMap fun ri =>
    heading_maker ri.1 ri.2 ++ predicted_values_maker ri.2 ++ table_maker ri.2

/-! ## Theorems -/

theorem length_displayText (v : ℚ) : (displayText v).length = symbolCount v := by
  simp [displayText, String.length]

theorem displayText_float0_6_length : (displayText float0_6).length = 3 := by
  rw [length_displayText, symbolCount,
    abs_of_nonneg (by norm_num [float0_6] : (0 : ℚ) ≤ float0_6),
    show (⌊float0_6 / float0_2⌋ : ℤ) = 2 by norm_num [float0_6, float0_2]]
  decide

/-- C2 counterexample: the Python float literal `0.6` denotes the double
`5404319552844595 / 2^53`; at that value the program prints 3 symbols, not
the 4 the claim assigns to magnitude `0.6` — in CPython,
`0.6 // 0.2 == 2.0`, because the double `0.6` lies below `3 * float0_2`. -/
theorem symbol_bucket_float_counterexample :
    (displayText float0_6).length = 3 ∧ ¬ ((displayText float0_6).length = 4) := by
  refine ⟨displayText_float0_6_length, ?_⟩
  rw [displayText_float0_6_length]
  decide

/-- C2 (amended): on IEEE doubles, the contribution symbol of a rendered row
is `+` for `v ≥ 0` (including exactly `0`) and `-` for `v < 0`, repeated
`min(int(|v| // 0.2) + 1, 5)` times, where `//` is Python float floor
division (the exact floor of the quotient by the double `0.2`, `float0_2`);
the float literals `0.0, 0.2, 0.4, 0.6, 0.8` and any magnitude `≥ 1.0` yield
`1, 2, 3, 3, 5, 5` symbols, independent of sign (`0.6 // 0.2 == 2.0` in
doubles, so magnitude `0.6` yields 3, not 4). -/
theorem displayText_bucketing (v : ℚ) :
    displayText v
      = String.mk (List.replicate (min ((⌊|v| / float0_2⌋).toNat + 1) 5)
          (if 0 ≤ v then '+' else '-')) ∧
    (displayText v).length = (displayText (-v)).length ∧
    (0 ≤ v → displayText v = String.mk (List.replicate (symbolCount v) '+')) ∧
    (v < 0 → displayText v = String.mk (List.replicate (symbolCount v) '-')) ∧
    (v = 0 → displayText v = "+") ∧
    (|v| = float0_2 → (displayText v).length = 2) ∧
    (|v| = float0_4 → (displayText v).length = 3) ∧
    (|v| = float0_6 → (displayText v).length = 3) ∧
    (|v| = float0_8 → (displayText v).length = 5) ∧
    (1 ≤ |v| → (displayText v).length = 5) := by
  refine ⟨rfl, ?_, ?_, ?_, ?_, ?_, ?_, ?_, ?_, ?_⟩
  · rw [length_displayText, length_displayText]
    simp [symbolCount, abs_neg]
  · intro h
    simp [displayText, h]
  · intro h
    simp [displayText, not_le.mpr h]
  · intro h
    subst h
    have hc : symbolCount (0 : ℚ) = 1 := by
      simp [symbolCount]
    rw [displayText, hc, if_pos le_rfl]
    decide
  · intro h
    rw [length_displayText, symbolCount, h,
      show (⌊float0_2 / float0_2⌋ : ℤ) = 1 by norm_num [float0_2]]
    decide
  · intro h
    rw [length_displayText, symbolCount, h,
      show (⌊float0_4 / float0_2⌋ : ℤ) = 2 by norm_num [float0_4, float0_2]]
    decide
  · intro h
    rw [length_displayText, symbolCount, h,
      show (⌊float0_6 / float0_2⌋ : ℤ) = 2 by norm_num [float0_6, float0_2]]
    decide
  · intro h
    rw [length_displayText, symbolCount, h,
      show (⌊float0_8 / float0_2⌋ : ℤ) = 4 by norm_num [float0_8, float0_2]]
    decide
  · intro h
    rw [length_displayText, symbolCount]
    have h4 : (4 : ℤ) ≤ ⌊|v| / float0_2⌋ := by
      rw [Int.le_floor]
      rw [le_div_iff₀ (by norm_num [float0_2] : (0 : ℚ) < float0_2)]
      have h2 : (4 : ℚ) * float0_2 ≤ 1 := by norm_num [float0_2]
      push_cast
      linarith
    omega

theorem displayText_bucketing_witness :
    (displayText float0_6).length = 3 ∧ displayText 0 = "+"
      ∧ (displayText (-2)).length = 5 :=
  ⟨(displayText_bucketing float0_6).2.2.2.2.2.2.2.1
      (abs_of_nonneg (by norm_num [float0_6])),
   (displayText_bucketing 0).2.2.2.2.1 rfl,
   (displayText_bucketing (-2)).2.2.2.2.2.2.2.2.2 (by
      rw [abs_of_nonpos (by norm_num)]; norm_num)⟩

/-- The attribution set of the C4 example (values stand for `value[0]`). -/
def c4ShapValues : List (String × ℚ) := [("a", 0.5), ("b", -0.9), ("c", 0.1)]

theorem c4_eval : _make_rows c4ShapValues c4ShapValues 1 false
    = [⟨"a", "+++", none⟩, ⟨"b", "-----", none⟩] := by
  have hsort : sortedTuples c4ShapValues = [(-0.9, "b"), (0.1, "c"), (0.5, "a")] := by
    norm_num [sortedTuples, c4ShapValues, List.insertionSort, List.orderedInsert, tupleOrder]
  have hdisp : featuresToDisplay c4ShapValues 1 = [(0.5, "a"), (-0.9, "b")] := by
    norm_num [featuresToDisplay, hsort, pySliceLast]
  have h1 : displayText (0.5 : ℚ) = "+++" := by
    have hc : symbolCount (0.5 : ℚ) = 3 := by
      rw [symbolCount, show |(0.5 : ℚ)| = 0.5 from abs_of_nonneg (by norm_num),
        show (⌊(0.5 : ℚ) / float0_2⌋ : ℤ) = 2 by norm_num [float0_2]]
      decide
    rw [displayText, hc, if_pos (by norm_num : (0 : ℚ) ≤ 0.5)]
    decide
  have h2 : displayText (-0.9 : ℚ) = "-----" := by
    have hc : symbolCount (-0.9 : ℚ) = 5 := by
      rw [symbolCount, show |(-0.9 : ℚ)| = 0.9 from by
        rw [abs_of_nonpos (by norm_num)]; norm_num,
        show (⌊(0.9 : ℚ) / float0_2⌋ : ℤ) = 4 by norm_num [float0_2]]
      decide
    rw [displayText, hc, if_neg (by norm_num)]
    decide
  rw [_make_rows, hdisp]
  simp [makeRow, h1, h2]

/-- C4 counterexample: rendering `{"a": 0.5, "b": -0.9, "c": 0.1}` with
`top_k = 1` does NOT put feature `b` first: the code shows the `top_k`
highest features before the `top_k` lowest ones. -/
theorem c4_example_counterexample :
    ¬ (_make_rows c4ShapValues c4ShapValues 1 false
        = [⟨"b", "-----", none⟩, ⟨"a", "+++", none⟩]) := by
  rw [c4_eval]
  decide

/-- C4 (amended): rendering the regression attribution set
`{"a": 0.5, "b": -0.9, "c": 0.1}` with `top_k = 1` produces exactly two rows,
in the order: feature `a` with symbol `"+++"` first, then feature `b` with
symbol `"-----"`. -/
theorem c4_example_amended :
    _make_rows c4ShapValues c4ShapValues 1 false
      = [⟨"a", "+++", none⟩, ⟨"b", "-----", none⟩] := c4_eval

/-- C1: with `D` the features sorted by descending `(normalized value, name)`
pairs (ties broken by feature name), the displayed features are all of `D`
when there are at most `2 * top_k` features, and otherwise the `top_k`
highest (descending) followed by the `top_k` lowest (descending among
themselves), `2 * top_k` rows in total; the table rows are exactly the rows
built from the displayed features, in that order. -/
theorem make_rows_ranking (shap_values normalized_values : List (String × ℚ))
    (top_k : ℕ) (include_shap_values : Bool) (hk : 0 < top_k) :
    ∃ D : List (ℚ × String),
      D.Perm (normalized_values.map fun p => (p.2, p.1)) ∧
      D.Pairwise (fun a b => b.1 < a.1 ∨ (b.1 = a.1 ∧ strRel b.2 a.2)) ∧
      (normalized_values.length ≤ 2 * top_k →
        featuresToDisplay normalized_values top_k = D) ∧
      (2 * top_k < normalized_values.length →
        featuresToDisplay normalized_values top_k
          = D.take top_k ++ D.drop (normalized_values.length - top_k) ∧
        (featuresToDisplay normalized_values top_k).length = 2 * top_k) ∧
      _make_rows shap_values normalized_values top_k include_shap_values
        = (featuresToDisplay normalized_values top_k).map
            (makeRow shap_values include_shap_values) := by
  set s := sortedTuples normalized_values with hs
  have hL : s.length = normalized_values.length := length_sortedTuples normalized_values
  have hfd : featuresToDisplay normalized_values top_k
      = if s.length ≤ 2 * top_k then s.reverse
        else (pySliceLast s top_k).reverse ++ (s.take top_k).reverse := rfl
  refine ⟨s.reverse, ?_, ?_, ?_, ?_, rfl⟩
  · exact (List.reverse_perm s).trans (sortedTuples_perm normalized_values)
  · rw [List.pairwise_reverse]
    exact sortedTuples_sorted normalized_values
  · intro h
    rw [hfd, if_pos (by omega)]
  · intro hlt
    have h2 : featuresToDisplay normalized_values top_k
        = (s.drop (s.length - top_k)).reverse ++ (s.take top_k).reverse := by
      rw [hfd, if_neg (by omega), pySliceLast, if_neg hk.ne']
    constructor
    · rw [h2, List.take_reverse, List.drop_reverse,
        show s.length - (normalized_values.length - top_k) = top_k by omega]
    · rw [h2, List.length_append, List.length_reverse, List.length_reverse,
        List.length_drop, List.length_take]
      omega

theorem make_rows_ranking_witness :
    ∃ D : List (ℚ × String),
      D.Perm ([(("a" : String), (1 : ℚ))].map fun p => (p.2, p.1)) ∧
      D.Pairwise (fun a b => b.1 < a.1 ∨ (b.1 = a.1 ∧ strRel b.2 a.2)) ∧
      ([(("a" : String), (1 : ℚ))].length ≤ 2 * 1 →
        featuresToDisplay [(("a" : String), (1 : ℚ))] 1 = D) ∧
      (2 * 1 < [(("a" : String), (1 : ℚ))].length →
        featuresToDisplay [(("a" : String), (1 : ℚ))] 1
          = D.take 1 ++ D.drop ([(("a" : String), (1 : ℚ))].length - 1) ∧
        (featuresToDisplay [(("a" : String), (1 : ℚ))] 1).length = 2 * 1) ∧
      _make_rows [(("a" : String), (1 : ℚ))] [(("a" : String), (1 : ℚ))] 1 false
        = (featuresToDisplay [(("a" : String), (1 : ℚ))] 1).map
            (makeRow [(("a" : String), (1 : ℚ))] false) :=
  make_rows_ranking [(("a" : String), (1 : ℚ))] [(("a" : String), (1 : ℚ))] 1 false
    (by norm_num)

theorem sortValuesIdx_perm (errors : List ℚ) :
    (sortValuesIdx errors).Perm (List.range errors.length) := by
  have h := (List.perm_insertionSort errRel errors.enum).map Prod.fst
  rwa [List.enum_map_fst] at h

theorem length_sortValuesIdx (errors : List ℚ) :
    (sortValuesIdx errors).length = errors.length :=
  (sortValuesIdx_perm errors).length_eq.trans (List.length_range _)

theorem sortValuesIdx_nodup (errors : List ℚ) : (sortValuesIdx errors).Nodup :=
  ((sortValuesIdx_perm errors).nodup_iff).mpr (List.nodup_range _)

theorem sortValuesIdx_sorted (errors : List ℚ) :
    (sortValuesIdx errors).Pairwise fun i j => errors.getD i 0 ≤ errors.getD j 0 := by
  have hs : (List.insertionSort errRel errors.enum).Pairwise errRel :=
    List.sorted_insertionSort _ _
  have hmem : ∀ p ∈ List.insertionSort errRel errors.enum, errors.getD p.1 0 = p.2 := by
    intro p hp
    have hp' : p ∈ errors.enum := (List.mem_insertionSort _).mp hp
    have h2 := List.mem_enum_iff_getElem?.mp hp'
    rw [List.getD_eq_getElem?_getD, h2]
    rfl
  rw [sortValuesIdx, List.pairwise_map]
  exact hs.imp_of_mem fun {a b} ha hb hab => by
    rw [hmem a ha, hmem b hb]; exact hab

theorem pairwise_take_all {α : Type} {R : α → α → Prop} {l : List α}
    (h : l.Pairwise R) (n : ℕ) : ∀ i ∈ l.take n, ∀ j ∈ l, j ∉ l.take n → R i j := by
  intro i hi j hj hjn
  have h' := List.pairwise_append.mp
    (show (l.take n ++ l.drop n).Pairwise R by rw [List.take_append_drop]; exact h)
  have hjd : j ∈ l.drop n := by
    have hj' : j ∈ l.take n ++ l.drop n := by rw [List.take_append_drop]; exact hj
    rcases List.mem_append.mp hj' with h1 | h1
    · exact absurd h1 hjn
    · exact h1
  exact h'.2.2 i hi j hjd

theorem pairwise_drop_all {α : Type} {R : α → α → Prop} {l : List α}
    (h : l.Pairwise R) (k : ℕ) : ∀ i ∈ l.drop k, ∀ j ∈ l, j ∉ l.drop k → R j i := by
  intro i hi j hj hjk
  have h' := List.pairwise_append.mp
    (show (l.take k ++ l.drop k).Pairwise R by rw [List.take_append_drop]; exact h)
  have hjt : j ∈ l.take k := by
    have hj' : j ∈ l.take k ++ l.drop k := by rw [List.take_append_drop]; exact hj
    rcases List.mem_append.mp hj' with h1 | h1
    · exact h1
    · exact absurd h1 hjk
  exact h'.2.2 j hjt i hi

theorem bwValidationError_eq_none_iff (a : BWArgs) :
    bwValidationError a = none ↔
      a.input_is_dataframe = true ∧ a.num_to_explain * 2 ≤ a.n_rows ∧
      a.y_true_is_series = true ∧ a.y_true_len = a.n_rows ∧
      validOutputFormat a.output_format = true := by
  rw [bwValidationError]
  split_ifs with h1 h2 h3 h4 <;> simp_all

/-- C3 (amended: additionally `num_to_explain ≥ 1` — for `num_to_explain = 0`
Python's `index[-0:]` slice selects every record instead of none — and with
ties among equal error scores broken in the deterministic but unspecified
order produced by pandas' `sort_values`, whose default sort kind is
quicksort, not a stable sort): with the default metric (its per-record score
list — `abs_error` for regression — or any metric's, is `errors`), the
selected index list is `σ.take n ++ σ.drop (m - n)` where `σ` is the
ascending-by-error permutation of all record positions that `sort_values`
returned, so it has length `2n`, its first half is exactly the globally
lowest-error records, its second half the globally highest-error ones,
concatenated best-then-worst; and the report-section composer walks exactly
that list, in that order. -/
theorem best_worst_selection (a : BWArgs) (metric_name : String) (errors : List ℚ)
    (sort_values : List ℚ → List ℕ)
    (hval : bwValidationError a = none) (hlen : errors.length = a.n_rows)
    (hperm : (sort_values errors).Perm (List.range errors.length))
    (hsorted : (sort_values errors).Pairwise fun i j =>
      errors.getD i 0 ≤ errors.getD j 0)
    (hpos : 1 ≤ a.num_to_explain) :
    ∃ il : List ℕ,
      explain_predictions_best_worst a metric_name (.ok errors) sort_values
        = .ok il ∧
      il = (sort_values errors).take a.num_to_explain
        ++ (sort_values errors).drop (a.n_rows - a.num_to_explain) ∧
      il.length = 2 * a.num_to_explain ∧
      (∀ i ∈ il.take a.num_to_explain, ∀ j ∈ List.range a.n_rows,
        j ∉ il.take a.num_to_explain → errors.getD i 0 ≤ errors.getD j 0) ∧
      (∀ i ∈ il.drop a.num_to_explain, ∀ j ∈ List.range a.n_rows,
        j ∉ il.drop a.num_to_explain → errors.getD j 0 ≤ errors.getD i 0) ∧
      ∀ (hm : ℕ → ℕ → List String) (pm tm : ℕ → List String),
        make_report_section hm pm tm il
          = il.enum.flatMap fun ri => hm ri.1 ri.2 ++ pm ri.2 ++ tm ri.2 := by
  obtain ⟨hdf, hcount, hser, hylen, hfmt⟩ := (bwValidationError_eq_none_iff a).mp hval
  have hσlen : (sort_values errors).length = a.n_rows := by
    rw [hperm.length_eq, List.length_range, hlen]
  have hil : bestWorstIndexList (sort_values errors) a.num_to_explain
      = (sort_values errors).take a.num_to_explain
        ++ (sort_values errors).drop (a.n_rows - a.num_to_explain) := by
    rw [bestWorstIndexList, pySliceLast, if_neg (by omega), hσlen]
  have hjmem : ∀ j ∈ List.range a.n_rows, j ∈ sort_values errors := by
    intro j hj
    exact hperm.mem_iff.mpr (by rwa [hlen])
  refine ⟨bestWorstIndexList (sort_values errors) a.num_to_explain,
    ?_, hil, ?_, ?_, ?_, fun hm pm tm => rfl⟩
  · simp [explain_predictions_best_worst, hval]
  · rw [hil, List.length_append, List.length_take, List.length_drop]
    omega
  · rw [hil, List.take_left' (by rw [List.length_take]; omega)]
    intro i hi j hj hjn
    exact pairwise_take_all hsorted a.num_to_explain i hi j (hjmem j hj) hjn
  · rw [hil, List.drop_left' (by rw [List.length_take]; omega)]
    intro i hi j hj hjn
    exact pairwise_drop_all hsorted (a.n_rows - a.num_to_explain)
      i hi j (hjmem j hj) hjn

theorem best_worst_selection_witness :
    ∃ il : List ℕ,
      explain_predictions_best_worst ⟨true, 2, true, 2, 1, "text"⟩ "abs_error"
          (.ok (abs_error [(0 : ℚ), 5] [(1 : ℚ), 1])) sortValuesIdx = .ok il ∧
      il = (sortValuesIdx (abs_error [(0 : ℚ), 5] [(1 : ℚ), 1])).take 1
        ++ (sortValuesIdx (abs_error [(0 : ℚ), 5] [(1 : ℚ), 1])).drop (2 - 1) ∧
      il.length = 2 * 1 ∧
      (∀ i ∈ il.take 1, ∀ j ∈ List.range 2, j ∉ il.take 1 →
        (abs_error [(0 : ℚ), 5] [(1 : ℚ), 1]).getD i 0
          ≤ (abs_error [(0 : ℚ), 5] [(1 : ℚ), 1]).getD j 0) ∧
      (∀ i ∈ il.drop 1, ∀ j ∈ List.range 2, j ∉ il.drop 1 →
        (abs_error [(0 : ℚ), 5] [(1 : ℚ), 1]).getD j 0
          ≤ (abs_error [(0 : ℚ), 5] [(1 : ℚ), 1]).getD i 0) ∧
      ∀ (hm : ℕ → ℕ → List String) (pm tm : ℕ → List String),
        make_report_section hm pm tm il
          = il.enum.flatMap fun ri => hm ri.1 ri.2 ++ pm ri.2 ++ tm ri.2 :=
  best_worst_selection ⟨true, 2, true, 2, 1, "text"⟩ "abs_error"
    (abs_error [(0 : ℚ), 5] [(1 : ℚ), 1]) sortValuesIdx
    (by simp [bwValidationError, validOutputFormat]) rfl
    (sortValuesIdx_perm _) (sortValuesIdx_sorted _) (by norm_num)

/-- C3 counterexample: `num_to_explain = 0` passes every validation, yet with
one record the selected index list is `[0]`, of length `1 ≠ 2 * 0`
(Python's `sorted_scores.index[-0:]` is the whole index). -/
theorem best_worst_zero_counterexample :
    explain_predictions_best_worst ⟨true, 1, true, 1, 0, "text"⟩ "abs_error"
        (.ok [(0 : ℚ)]) sortValuesIdx = .ok [0] ∧ ¬ (([0] : List ℕ).length = 2 * 0) := by
  constructor
  · have hval : bwValidationError ⟨true, 1, true, 1, 0, "text"⟩ = none := by
      simp [bwValidationError, validOutputFormat]
    have hbw : bestWorstIndexList (sortValuesIdx [(0 : ℚ)]) 0 = [0] := by
      simp [bestWorstIndexList, sortValuesIdx, pySliceLast, List.insertionSort,
        List.orderedInsert, List.enum, List.enumFrom]
    simp [explain_predictions_best_worst, hval, hbw]
  · simp

theorem bestWorstIndexList_nodup (sortedIdx : List ℕ) (n m : ℕ)
    (hperm : sortedIdx.Perm (List.range m)) (h : n * 2 ≤ m) :
    (bestWorstIndexList sortedIdx n).Nodup := by
  have hnd : sortedIdx.Nodup := hperm.nodup_iff.mpr (List.nodup_range _)
  have hσlen : sortedIdx.length = m := hperm.length_eq.trans (List.length_range _)
  by_cases h0 : n = 0
  · subst h0
    simpa [bestWorstIndexList, pySliceLast] using hnd
  · rw [bestWorstIndexList, pySliceLast, if_neg h0]
    exact List.Nodup.append ((List.take_sublist _ _).nodup hnd)
      ((List.drop_sublist _ _).nodup hnd)
      (List.disjoint_take_drop hnd (by omega))

/-- C10: whenever `explain_predictions_best_worst` passes validation (in
particular the row count is at least `2 * num_to_explain`) and returns a
selected index list, that list has no duplicate record indices: the best
slice and the worst slice of the error-sorted index cannot overlap. -/
theorem best_worst_indices_distinct (a : BWArgs) (metric_name : String)
    (errors : List ℚ) (sort_values : List ℚ → List ℕ) (il : List ℕ)
    (hlen : errors.length = a.n_rows)
    (hperm : (sort_values errors).Perm (List.range errors.length))
    (h : explain_predictions_best_worst a metric_name (.ok errors) sort_values
      = .ok il) :
    il.Nodup := by
  cases hv : bwValidationError a with
  | some msg =>
    simp only [explain_predictions_best_worst, hv] at h
    exact absurd h (by simp)
  | none =>
    simp only [explain_predictions_best_worst, hv, Except.ok.injEq] at h
    obtain ⟨-, hcount, -, -, -⟩ := (bwValidationError_eq_none_iff a).mp hv
    rw [← h]
    exact bestWorstIndexList_nodup (sort_values errors) a.num_to_explain
      errors.length hperm (by omega)

theorem best_worst_indices_distinct_witness : ([1, 0] : List ℕ).Nodup :=
  best_worst_indices_distinct ⟨true, 2, true, 2, 1, "text"⟩ "abs_error"
    [(3 : ℚ), 1] sortValuesIdx [1, 0] rfl (sortValuesIdx_perm _) (by
      norm_num [explain_predictions_best_worst, bwValidationError, validOutputFormat,
        bestWorstIndexList, sortValuesIdx, pySliceLast, List.insertionSort,
        List.orderedInsert, errRel, List.enum, List.enumFrom])

/-- C7: when validation passes and scoring raises (prediction or metric
computation fails with exception `f.exn` and formatted traceback `f.tb`),
`explain_predictions_best_worst` raises exactly
`PipelineScoreError(exceptions={metric_name: (e, tb)}, scored_successfully={})`
— the original exception never propagates raw, and no report is produced. -/
theorem scoring_failure_wrapped (a : BWArgs) (metric_name : String)
    (f : ScoreFailure) (sort_values : List ℚ → List ℕ)
    (hval : bwValidationError a = none) :
    explain_predictions_best_worst a metric_name (.error f) sort_values
      = .error (.scoreError ⟨[(metric_name, f.exn, f.tb)], []⟩) := by
  simp [explain_predictions_best_worst, hval]

theorem scoring_failure_wrapped_witness :
    explain_predictions_best_worst ⟨true, 2, true, 2, 1, "text"⟩ "cross_entropy"
        (.error ⟨"boom", ["line 1"]⟩) sortValuesIdx
      = .error (.scoreError ⟨[("cross_entropy", "boom", ["line 1"])], []⟩) :=
  scoring_failure_wrapped ⟨true, 2, true, 2, 1, "text"⟩ "cross_entropy"
    ⟨"boom", ["line 1"]⟩ sortValuesIdx (by simp [bwValidationError, validOutputFormat])

/-- C8: `explain_predictions_best_worst` raises the row-count `ValueError`
whenever `input_features` is not a dataframe or has fewer than
`2 * num_to_explain` rows, the series `ValueError` when `y_true` is not a
series, and the length-mismatch `ValueError` when the lengths differ — in
each case for every scoring outcome, i.e. before any computation; a
dataframe with exactly `2 * num_to_explain` rows and a matching `y_true`
(and a recognized output format) passes validation. -/
theorem best_worst_validation_checks (a : BWArgs) (metric_name : String) :
    ((a.input_is_dataframe = false ∨ a.n_rows < a.num_to_explain * 2) →
      ∀ scoring sort_values,
        explain_predictions_best_worst a metric_name scoring sort_values
          = .error (.valueError (rowCountErrorMsg a.num_to_explain))) ∧
    (a.input_is_dataframe = true → a.num_to_explain * 2 ≤ a.n_rows →
      a.y_true_is_series = false →
      ∀ scoring sort_values,
        explain_predictions_best_worst a metric_name scoring sort_values
          = .error (.valueError yTrueSeriesErrorMsg)) ∧
    (a.input_is_dataframe = true → a.num_to_explain * 2 ≤ a.n_rows →
      a.y_true_is_series = true → a.y_true_len ≠ a.n_rows →
      ∀ scoring sort_values,
        explain_predictions_best_worst a metric_name scoring sort_values
          = .error (.valueError (lengthMismatchErrorMsg a.y_true_len a.n_rows))) ∧
    (a.input_is_dataframe = true → a.n_rows = a.num_to_explain * 2 →
      a.y_true_is_series = true → a.y_true_len = a.n_rows →
      validOutputFormat a.output_format = true →
      bwValidationError a = none ∧
      ∀ errors (sort_values : List ℚ → List ℕ),
        explain_predictions_best_worst a metric_name (.ok errors) sort_values
          = .ok (bestWorstIndexList (sort_values errors) a.num_to_explain)) := by
  refine ⟨?_, ?_, ?_, ?_⟩
  · intro h scoring sort_values
    have hv : bwValidationError a = some (rowCountErrorMsg a.num_to_explain) := by
      rw [bwValidationError, if_pos]
      rintro ⟨h1, h2⟩
      rcases h with h | h
      · rw [h1] at h
        simp at h
      · omega
    simp [explain_predictions_best_worst, hv]
  · intro hdf hcnt hser scoring sort_values
    have hv : bwValidationError a = some yTrueSeriesErrorMsg := by
      rw [bwValidationError, if_neg (not_not_intro ⟨hdf, hcnt⟩), if_pos (by simp [hser])]
    simp [explain_predictions_best_worst, hv]
  · intro hdf hcnt hser hne scoring sort_values
    have hv : bwValidationError a = some (lengthMismatchErrorMsg a.y_true_len a.n_rows) := by
      rw [bwValidationError, if_neg (not_not_intro ⟨hdf, hcnt⟩),
        if_neg (not_not_intro hser), if_pos hne]
    simp [explain_predictions_best_worst, hv]
  · intro hdf heq hser hlen hfmt
    have hv : bwValidationError a = none :=
      (bwValidationError_eq_none_iff a).mpr ⟨hdf, by omega, hser, hlen, hfmt⟩
    exact ⟨hv, fun errors sort_values => by
      simp [explain_predictions_best_worst, hv]⟩

theorem best_worst_validation_checks_witness :
    (bwValidationError ⟨true, 2, true, 2, 1, "text"⟩ = none ∧
      ∀ errors (sort_values : List ℚ → List ℕ),
        explain_predictions_best_worst ⟨true, 2, true, 2, 1, "text"⟩
            "abs_error" (.ok errors) sort_values
          = .ok (bestWorstIndexList (sort_values errors) 1)) ∧
    (∀ scoring sort_values,
      explain_predictions_best_worst ⟨true, 1, true, 1, 1, "text"⟩
          "abs_error" scoring sort_values
        = .error (.valueError (rowCountErrorMsg 1))) :=
  ⟨(best_worst_validation_checks ⟨true, 2, true, 2, 1, "text"⟩ "abs_error").2.2.2
      rfl rfl rfl rfl (by decide),
   (best_worst_validation_checks ⟨true, 1, true, 1, 1, "text"⟩ "abs_error").1
      (Or.inr (by norm_num))⟩

/-- C6 counterexample: `explain_predictions` on an empty dataframe with the
invalid `output_format = "json"` raises the input-features `ValueError` —
a parameter error, but not one naming the received invalid value: `"json"`
does not occur in its message (the dataframe validation runs first). -/
theorem output_format_masked_counterexample :
    explain_predictions "json" true 0 = .error inputFeaturesErrorMsg ∧
    inputFeaturesErrorMsg ≠ outputFormatErrorMsg "json" ∧
    ¬ ("json".data <:+: inputFeaturesErrorMsg.data) := by
  refine ⟨by simp [explain_predictions], by decide, by decide⟩

/-- C6 (amended): each of the three entry points, given an `output_format`
outside `{"text", "dict"}` ("dict" is the concrete token of the structured
format), raises a `ValueError` before any attribution computation — whatever
the attribution / scoring outcome would have been; its message names the
received invalid value provided the validations the source performs earlier
pass (`explain_prediction` checks `output_format` first, so always;
`explain_predictions` first requires a non-empty dataframe;
`explain_predictions_best_worst` first requires its row-count, series and
length validations) — when such an earlier validation fails, that
validation's error is raised instead, still before any computation. -/
theorem invalid_output_format_rejected :
    (∃ pre, ∀ fmt, outputFormatErrorMsg fmt = pre ++ fmt) ∧
    (∀ (fmt : String) (draw : Table → String) (drawLines : Table → List String)
        (pl : Pipeline) (input_is_dataframe : Bool) (n_rows top_k : ℕ) (incl : Bool),
      validOutputFormat fmt = false →
      explain_prediction draw drawLines fmt pl input_is_dataframe n_rows top_k incl
        = .error (outputFormatErrorMsg fmt)) ∧
    (∀ (fmt : String) (n_rows : ℕ), validOutputFormat fmt = false → n_rows ≠ 0 →
      explain_predictions fmt true n_rows = .error (outputFormatErrorMsg fmt)) ∧
    (∀ (fmt : String) (input_is_dataframe : Bool) (n_rows : ℕ),
      validOutputFormat fmt = false →
      ∃ msg, explain_predictions fmt input_is_dataframe n_rows = .error msg) ∧
    (∀ (a : BWArgs) (metric_name : String) (scoring : Except ScoreFailure (List ℚ))
        (sort_values : List ℚ → List ℕ),
      validOutputFormat a.output_format = false →
      a.input_is_dataframe = true → a.num_to_explain * 2 ≤ a.n_rows →
      a.y_true_is_series = true → a.y_true_len = a.n_rows →
      explain_predictions_best_worst a metric_name scoring sort_values
        = .error (.valueError (outputFormatErrorMsg a.output_format))) ∧
    (∀ (a : BWArgs) (metric_name : String) (scoring : Except ScoreFailure (List ℚ))
        (sort_values : List ℚ → List ℕ),
      validOutputFormat a.output_format = false →
      ∃ msg, explain_predictions_best_worst a metric_name scoring sort_values
        = .error (.valueError msg)) := by
  refine ⟨⟨"Parameter output_format must be either text or dict. Received ",
    fun fmt => rfl⟩, ?_, ?_, ?_, ?_, ?_⟩
  · intro fmt draw drawLines pl input_is_dataframe n_rows top_k incl h
    simp [explain_prediction, h]
  · intro fmt n_rows h hn
    simp [explain_predictions, h, hn]
  · intro fmt input_is_dataframe n_rows h
    by_cases hdf : input_is_dataframe = true ∧ n_rows ≠ 0
    · exact ⟨outputFormatErrorMsg fmt, by
        simp [explain_predictions, h, hdf.1, hdf.2]⟩
    · exact ⟨inputFeaturesErrorMsg, by simp [explain_predictions, hdf]⟩
  · intro a metric_name scoring sort_values h hdf hcnt hser hlen
    have hv : bwValidationError a = some (outputFormatErrorMsg a.output_format) := by
      rw [bwValidationError, if_neg (not_not_intro ⟨hdf, hcnt⟩),
        if_neg (not_not_intro hser), if_neg (not_not_intro hlen), if_pos (by simp [h])]
    simp [explain_predictions_best_worst, hv]
  · intro a metric_name scoring sort_values h
    cases hv : bwValidationError a with
    | some msg => exact ⟨msg, by simp [explain_predictions_best_worst, hv]⟩
    | none =>
      obtain ⟨-, -, -, -, hfmt⟩ := (bwValidationError_eq_none_iff a).mp hv
      rw [h] at hfmt
      exact absurd hfmt (by simp)

theorem invalid_output_format_rejected_witness :
    explain_predictions "json" true 1
      = .error (outputFormatErrorMsg "json") :=
  invalid_output_format_rejected.2.2.1 "json" 1 (by decide) (by norm_num)

/-- C5 (code bug): every `explain_prediction` call that passes the
output-format check raises `TypeError` — `explainers.py` passes
`output_format=` to `_make_single_prediction_shap_table`, whose definition
in `_user_interface.py` accepts no such parameter — contradicting
`explain_prediction`'s own docstring ("Returns: str or dict - A report ...").
The claimed behavior is exactly what the callee implements when invoked
without that keyword, as the report-section path does: a `ValueError` unless
the input is a one-row dataframe, and the rendered table of the pipeline's
problem type for one row. -/
theorem explain_prediction_type_error_bug (draw : Table → String)
    (drawLines : Table → List String) (fmt : String) (pl : Pipeline)
    (input_is_dataframe : Bool) (n_rows : ℕ) (top_k : ℕ) (incl : Bool)
    (hf : validOutputFormat fmt = true) :
    explain_prediction draw drawLines fmt pl input_is_dataframe n_rows top_k incl
      = .error keywordTypeErrorMsg ∧
    (¬ (input_is_dataframe = true ∧ n_rows = 1) →
      _make_single_prediction_shap_table draw drawLines pl input_is_dataframe
          n_rows top_k incl
        = .error "features must be stored in a dataframe of one row.") ∧
    (input_is_dataframe = true → n_rows = 1 →
      _make_single_prediction_shap_table draw drawLines pl input_is_dataframe
          n_rows top_k incl
        = .ok (renderShapTable draw drawLines pl top_k incl)) := by
  refine ⟨by simp [explain_prediction, hf], ?_, ?_⟩
  · intro h
    simp [_make_single_prediction_shap_table, h]
  · intro h1 h2
    simp [_make_single_prediction_shap_table, h1, h2]

theorem explain_prediction_type_error_bug_witness :
    explain_prediction (fun _ => "") (fun _ => []) "text" (.regression [] [])
        true 1 3 false = .error keywordTypeErrorMsg ∧
    _make_single_prediction_shap_table (fun _ => "") (fun _ => [])
        (.regression [] []) true 1 3 false
      = .ok (renderShapTable (fun _ => "") (fun _ => []) (.regression [] []) 3
          false) :=
  ⟨(explain_prediction_type_error_bug (fun _ => "") (fun _ => []) "text"
      (.regression [] []) true 1 3 false (by decide)).1,
   (explain_prediction_type_error_bug (fun _ => "") (fun _ => []) "text"
      (.regression [] []) true 1 3 false (by decide)).2.2 rfl rfl⟩

/-- C9: the binary table maker renders exactly one table, from the
attribution sets at class index 1 (the dominant class) only — its output is
unchanged if any other class entry changes — and the multiclass maker
renders one table per class in the stored class-list order, each preceded by
a `"Class: <name>"` label line and followed by a blank-line separator. -/
theorem class_table_dispatch :
    (∀ (draw : Table → String) (sv nv sv' nv' : List (List (String × ℚ)))
        (top_k : ℕ) (incl : Bool),
      _SHAPBinaryTableMaker draw sv nv top_k incl
        = draw (_make_table (sv.getD 1 []) (nv.getD 1 []) top_k incl) ∧
      (sv.getD 1 [] = sv'.getD 1 [] → nv.getD 1 [] = nv'.getD 1 [] →
        _SHAPBinaryTableMaker draw sv nv top_k incl
          = _SHAPBinaryTableMaker draw sv' nv' top_k incl)) ∧
    (∀ (drawLines : Table → List String) (class_names : List String)
        (sv nv : List (List (String × ℚ))) (top_k : ℕ) (incl : Bool),
      _SHAPMultiClassTableMaker drawLines class_names sv nv top_k incl
        = String.intercalate "\n"
            ((class_names.zip (sv.zip nv)).flatMap fun t =>
              ("Class: " ++ t.1 ++ "\n")
                :: (drawLines (_make_table t.2.1 t.2.2 top_k incl) ++ ["\n"]))) := by
  refine ⟨fun draw sv nv sv' nv' top_k incl => ⟨rfl, fun h1 h2 => ?_⟩,
    fun _ _ _ _ _ _ => rfl⟩
  rw [_SHAPBinaryTableMaker, _SHAPBinaryTableMaker, h1, h2]

theorem class_table_dispatch_witness :
    _SHAPBinaryTableMaker (fun _ => "t") [[], [(("x" : String), (1 : ℚ))]]
        [[], [(("x" : String), (1 : ℚ))]] 1 false
      = _SHAPBinaryTableMaker (fun _ => "t")
          [[(("y" : String), (2 : ℚ))], [(("x" : String), (1 : ℚ))]]
          [[(("y" : String), (2 : ℚ))], [(("x" : String), (1 : ℚ))]] 1 false :=
  (class_table_dispatch.1 (fun _ => "t") [[], [(("x" : String), (1 : ℚ))]]
      [[], [(("x" : String), (1 : ℚ))]]
      [[(("y" : String), (2 : ℚ))], [(("x" : String), (1 : ℚ))]]
      [[(("y" : String), (2 : ℚ))], [(("x" : String), (1 : ℚ))]] 1 false).2 rfl rfl

end EvalML
